import Mathlib

/-!
# Verification of the cluster lifecycle reconciliation loop

A shallow embedding of the cluster CLI core of this repository: the cluster
state poller (`_wait_for_cluster_state`), the cluster name validator
(`_check_cluster_name_is_valid`), the `AWSClusterManager` operations
(`create`, `delete`, `list`), and the `AppConfig` persistence helpers.

The implementation module `lightning_app/cli/cmd_clusters.py` is not part of
the source tree here; only its test suite
(`tests/tests_app/cli/test_cmd_clusters.py`) is.  Definitions for that module
are therefore modelled from the specification (spec.md §§3-7), with every
user-facing message text taken verbatim from the expected strings asserted by
the test suite, which is source code of this repository.  The `AppConfig`
definitions are translated directly from
`src/lightning_app/utilities/packaging/app_config.py`.

Timing is modelled discretely: each sleep advances the clock by exactly
`poll_duration` and fetches are instantaneous, so after `k` sleeps the wall
clock reads `k * poll_duration`.  Durations (`timeout`, `poll_duration`) are
measured in tenths of a second — every duration appearing in the source's
tests is a multiple of 0.1 s.  As in the source (and as forced by the test
`test_echo_state_change_on_desired_running`, where seven polls of 0.1 s
succeed against a 0.6 s timeout), the elapsed time used for the deadline check
and the heartbeat display is the elapsed wall-clock time truncated to whole
seconds.
-/

/-- The `V1ClusterState` enumeration of the openapi model used by the tests:
phases a cluster can be in. -/
inductive V1ClusterState where
  | UNSPECIFIED
  | QUEUED
  | PENDING
  | RUNNING
  | FAILED
  | DELETED
deriving DecidableEq, Repr

/-- The `V1ClusterType` enumeration: `BYOC` is the bring-your-own-cloud type. -/
inductive V1ClusterType where
  | TYPE_UNSPECIFIED
  | BYOC
deriving DecidableEq, Repr

/-- The `V1ClusterPerformanceProfile` enumeration. -/
inductive V1ClusterPerformanceProfile where
  | PROFILE_UNSPECIFIED
  | DEFAULT
deriving DecidableEq, Repr

/-- `V1AWSClusterDriverSpec`: AWS driver parameters.  Fields the caller does
not set are `none`, as in the openapi model. -/
structure V1AWSClusterDriverSpec where
  bucket_name : Option String := none
  region : Option String := none
  role_arn : Option String := none
  external_id : Option String := none
deriving DecidableEq, Repr

/-- `V1KubernetesClusterDriver`: wraps the AWS driver spec. -/
structure V1KubernetesClusterDriver where
  aws : V1AWSClusterDriverSpec
deriving DecidableEq, Repr

/-- `V1ClusterDriver`: wraps the kubernetes driver. -/
structure V1ClusterDriver where
  kubernetes : V1KubernetesClusterDriver
deriving DecidableEq, Repr

/-- `V1ClusterSpec`: cluster type, performance profile and driver. -/
structure V1ClusterSpec where
  cluster_type : Option V1ClusterType := none
  performance_profile : Option V1ClusterPerformanceProfile := none
  driver : Option V1ClusterDriver := none
deriving DecidableEq, Repr

/-- `V1ClusterStatus`: the phase of the cluster and an optional reason text
(the empty string standing for an absent reason). -/
structure V1ClusterStatus where
  phase : V1ClusterState := V1ClusterState.UNSPECIFIED
  reason : String := ""
deriving DecidableEq, Repr

/-- `V1GetClusterResponse`: one immutable snapshot of a cluster as returned by
the client's `get`. -/
structure V1GetClusterResponse where
  id : Option String := none
  name : Option String := none
  status : V1ClusterStatus := {}
  spec : V1ClusterSpec := {}
deriving DecidableEq, Repr

/-- `V1CreateClusterRequest`: the body of the create mutation. -/
structure V1CreateClusterRequest where
  name : String
  spec : V1ClusterSpec
deriving DecidableEq, Repr

/-- Modelled from the spec: the target state rendered "in words
(running/deleted)" for user-facing messages (spec.md §4.2 step 5). -/
def stateStr : V1ClusterState → String
  | V1ClusterState.UNSPECIFIED => "unspecified"
  | V1ClusterState.QUEUED => "queued"
  | V1ClusterState.PENDING => "pending"
  | V1ClusterState.RUNNING => "running"
  | V1ClusterState.FAILED => "failed"
  | V1ClusterState.DELETED => "deleted"

/-- Modelled from the spec: the verb used in heartbeat messages; "deleted"
when polling towards `DELETED`, otherwise "created" (the only two targets the
manager uses, per spec.md §4.3 and the test heartbeat strings). -/
def targetVerb : V1ClusterState → String
  | V1ClusterState.DELETED => "deleted"
  | _ => "created"

/-- Two-digit rendering of the truncated elapsed seconds, matching the
`[elapsed=00s]` display asserted by the tests (Python `%02d`-style). -/
def pad2 (n : Nat) : String :=
  if n < 10 then "0" ++ toString n else toString n

/-- The provider storage identifier (S3 bucket name) carried by a snapshot's
driver spec; an absent field renders as Python's "None". -/
def bucketOf (r : V1GetClusterResponse) : String :=
  match r.spec.driver with
  | none => "None"
  | some d =>
    match d.kubernetes.aws.bucket_name with
    | none => "None"
    | some b => b

/-- Modelled from the spec: the `TimeoutError` message of
`_wait_for_cluster_state` (spec.md §6), with the exact text taken from the
expected string asserted by `Test_wait_for_cluster_state.test_times_out` in
`tests/tests_app/cli/test_cmd_clusters.py` — note that the test pins the
remediation line "lighting list clusters" (sic). -/
def _cluster_not_ready_message (stateS timeoutS cid : String) : String :=
  "The cluster has not entered the " ++ stateS ++ " state within " ++ timeoutS
    ++ "s.\n\nThe cluster may eventually be " ++ stateS
    ++ " afterwards, please check its status using:\n    lighting list clusters\n\n"
    ++ "To view cluster logs use:\n    lightning show cluster logs " ++ cid
    ++ "\n\nContact support@lightning.ai for additional help\n"

/-- Modelled from the spec: the failure-detected message (spec.md §6), text
from `test_echo_state_change_on_desired_running` ("incuring" sic). -/
def _failure_message (cid reason : String) : String :=
  "The requested cluster operation for cluster " ++ cid ++ " has errors:\n"
    ++ reason
    ++ "\n\n---\nWe are automatically retrying, and an automated alert has been created\n\n"
    ++ "WARNING: Any non-deleted cluster may be using resources.\n"
    ++ "To avoid incuring cost on your cloud provider, delete the cluster using the following command:\n"
    ++ "    lightning delete cluster " ++ cid
    ++ "\n\nContact support@lightning.ai for additional help\n"

/-- Modelled from the spec: the terminal message when the cluster reaches
`RUNNING` (spec.md §6), text from `test_echo_state_change_on_desired_running`. -/
def _running_message (cid : String) : String :=
  "Cluster " ++ cid ++ " is now running and ready to use.\n"
    ++ "To launch an app on this cluster use: lightning run app app.py --cloud --cluster-id "
    ++ cid ++ "\n"

/-- Modelled from the spec: the terminal message when the cluster reaches
`DELETED` (spec.md §6), text from `test_echo_state_change_on_desired_deleted`. -/
def _deleted_message (cid bucket : String) : String :=
  "Cluster " ++ cid
    ++ " has been successfully deleted, and almost all AWS resources have been removed\n\n"
    ++ "For safety purposes we kept the S3 bucket associated with the cluster: " ++ bucket
    ++ "\n\nYou may want to delete it manually using the AWS CLI:\n    aws s3 rb --force s3://"
    ++ bucket ++ "\n"

/-- Modelled from the spec: the discrete progress events the poller emits
(spec.md §4.2: session-start, heartbeat, failure-detected, terminal success);
the `ProgressReporter` (`click.echo`) receives their rendering. -/
inductive PollEvent where
  | started (target : V1ClusterState)
  | heartbeat (cid : String) (target : V1ClusterState) (elapsed : Nat)
  | failureDetected (cid : String) (reason : String)
  | terminal (cid : String) (target : V1ClusterState) (snapshot : V1GetClusterResponse)
deriving DecidableEq, Repr

/-- Whether an event is the terminal success event. -/
def PollEvent.isTerminal : PollEvent → Bool
  | PollEvent.terminal _ _ _ => true
  | _ => false

/-- Modelled from the spec: the text handed to `click.echo` for each progress
event, matching the strings asserted by the tests. -/
def renderEvent : PollEvent → String
  | PollEvent.started target => "Waiting for cluster to be " ++ stateStr target ++ "..."
  | PollEvent.heartbeat cid target elapsed =>
      "Cluster " ++ cid ++ " is being " ++ targetVerb target
        ++ " [elapsed=" ++ pad2 elapsed ++ "s]"
  | PollEvent.failureDetected cid reason => _failure_message cid reason
  | PollEvent.terminal cid target snapshot =>
      match target with
      | V1ClusterState.DELETED => _deleted_message cid (bucketOf snapshot)
      | _ => _running_message cid

/-- Modelled from the spec: how a `_wait_for_cluster_state` invocation ends —
with the target snapshot, with a `click.ClickException` timeout, with a
`KeyboardInterrupt` arriving during a sleep, or with the client failing
(in the tests: the fake client running out of responses). -/
inductive WaitResult where
  | success (snapshot : V1GetClusterResponse)
  | timeoutErr (msg : String)
  | cancelled
  | clientError
deriving DecidableEq, Repr

/-- The observable outcome of a poll loop: how many fetches were issued via
the client's `get`, which events were emitted, and how the loop ended. -/
structure PollState where
  fetches : Nat
  events : List PollEvent
  result : WaitResult
deriving DecidableEq, Repr

/-- Elapsed whole seconds after `k` sleeps of `poll` tenths of a second each
(wall-clock time truncated to an integer number of seconds, as in the source's
elapsed bookkeeping). -/
def elapsedSecs (poll : Nat) (k : Nat) : Nat :=
  k * poll / 10

/-- Whether the deadline has passed after `k` sleeps: the truncated elapsed
seconds have reached `timeout` (given in tenths of a second). -/
def deadlineReached (timeout poll : Nat) (k : Nat) : Bool :=
  decide (timeout ≤ elapsedSecs poll k * 10)

/-- Modelled from the spec: the polling loop of `_wait_for_cluster_state`
(spec.md §4.2).  `responses` is the sequence of snapshots the client's `get`
returns on successive fetches, `prev` the `(state, reason)` pair of the
previous iteration, and `k` the number of fetches already performed.  Each
iteration: if the deadline has passed, fail with the timeout message;
otherwise fetch; if the snapshot is in the target state, emit the terminal
event and return it; if it is `FAILED` and the previous iteration was not
`FAILED` with the same reason, emit a failure-detected event (edge-triggered
on the `(state, reason)` pair), otherwise a heartbeat; then sleep, during
which an interrupt scheduled at `cancelAt` (the 1-based index of the sleep)
aborts the wait with no further event or fetch. -/
def pollLoop (cid : String) (target : V1ClusterState) (timeout poll : Nat)
    (timeoutStr : String) (cancelAt : Option Nat) :
    List V1GetClusterResponse → Option (V1ClusterState × String) → Nat → PollState
  | [], _, k =>
    if deadlineReached timeout poll k then
      ⟨k, [], WaitResult.timeoutErr (_cluster_not_ready_message (stateStr target) timeoutStr cid)⟩
    else
      ⟨k, [], WaitResult.clientError⟩
  | resp :: rest, prev, k =>
    if deadlineReached timeout poll k then
      ⟨k, [], WaitResult.timeoutErr (_cluster_not_ready_message (stateStr target) timeoutStr cid)⟩
    else if resp.status.phase = target then
      ⟨k + 1, [PollEvent.terminal cid target resp], WaitResult.success resp⟩
    else
      let ev :=
        if resp.status.phase = V1ClusterState.FAILED
            ∧ prev ≠ some (V1ClusterState.FAILED, resp.status.reason) then
          PollEvent.failureDetected cid resp.status.reason
        else
          PollEvent.heartbeat cid target (elapsedSecs poll k)
      if cancelAt = some (k + 1) then
        ⟨k + 1, [ev], WaitResult.cancelled⟩
      else
        let tail := pollLoop cid target timeout poll timeoutStr cancelAt rest
          (some (resp.status.phase, resp.status.reason)) (k + 1)
        ⟨tail.fetches, ev :: tail.events, tail.result⟩

/-- Modelled from the spec: `_wait_for_cluster_state(client, cluster_id,
target_state, timeout, poll_duration)` (spec.md §4.2).  The client is
represented by the list of snapshots its `get` returns in order; `timeoutStr`
is the rendering of the float `timeout` used in the timeout message; a
`cancelAt` of `some n` means a `KeyboardInterrupt` arrives during the `n`-th
sleep.  Emits the session-start event, then runs the loop. -/
def _wait_for_cluster_state (responses : List V1GetClusterResponse) (cid : String)
    (target : V1ClusterState) (timeout : Nat) (timeoutStr : String) (poll : Nat)
    (cancelAt : Option Nat) : PollState :=
  let loop := pollLoop cid target timeout poll timeoutStr cancelAt responses none 0
  ⟨loop.fetches, PollEvent.started target :: loop.events, loop.result⟩

/-- Modelled from the spec: the accepted cluster-name pattern (spec.md §4.1) —
lowercase alphanumerics and hyphens only, length between 1 and 64. -/
def clusterNameRegexOk (name : String) : Bool :=
  decide (1 ≤ name.length) && decide (name.length ≤ 64)
    && name.data.all (fun c => c.isLower || c.isDigit || c = '-')

/-- Modelled from the spec: `_check_cluster_name_is_valid` (spec.md §4.1) —
returns the name when it matches the pattern, otherwise fails with a
`click.ClickException` whose message names the offending pattern (the tests
assert it contains "cluster name doesn't match regex pattern"). -/
def _check_cluster_name_is_valid (name : String) : Except String String :=
  if clusterNameRegexOk name then Except.ok name
  else Except.error
    ("cluster name doesn't match regex pattern ^[a-z0-9-]\x7b1,64\x7d$")

/-- Modelled from the spec: the network calls the manager issues against the
`ClusterStateClient` (spec.md §6), recorded in order. -/
inductive ClientCall where
  | get (id : String)
  | createCluster (body : V1CreateClusterRequest)
  | deleteCluster (id : String) (force : Bool)
  | listClusters (phase_not_in : List V1ClusterState)
deriving DecidableEq, Repr

/-- Whether a recorded call is the create mutation. -/
def ClientCall.isCreate : ClientCall → Bool
  | ClientCall.createCluster _ => true
  | _ => false

/-- Modelled from the spec: the creation notice printed right after the create
mutation (spec.md §4.3), text from `Test_create.test_delete_cluster_output`. -/
def _create_notice (cid : String) : String :=
  "BYOC cluster creation triggered successfully!\nThis can take up to an hour to complete.\n\n"
    ++ "To view the status of your clusters use:\n    lightning list clusters\n\n"
    ++ "To view cluster logs use:\n    lightning show cluster logs " ++ cid
    ++ "\n\nTo delete the cluster run:\n    lightning delete cluster " ++ cid ++ "\n"

/-- Modelled from the spec: the deletion notice printed right after the delete
mutation (spec.md §4.3: provider-managed storage is intentionally not deleted
and must be removed manually), text from
`Test_delete.test_delete_cluster_output`. -/
def _delete_notice (bucket : String) : String :=
  "Cluster deletion triggered successfully\n\n"
    ++ "For safety purposes we will not delete anything in the S3 bucket associated with the cluster:\n    "
    ++ bucket
    ++ "\n\nYou may want to delete it manually using the AWS CLI:\n    aws s3 rb --force s3://"
    ++ bucket ++ "\n"

/-- The observable outcome of a manager operation: the client calls issued in
order, the text printed via `click.echo`, and the validation error, if any. -/
structure ManagerResult where
  calls : List ClientCall
  echoed : List String
  err : Option String
deriving DecidableEq, Repr

/-- Modelled from the spec: `AWSClusterManager.create(cluster_name, region,
role_arn, external_id, do_async)` (spec.md §4.3).  Validates the name; on
success issues exactly one create mutation whose body carries the fixed
cluster type `BYOC`, the fixed `DEFAULT` performance profile and the
caller-supplied driver parameters, prints the creation notice, then either
prints the background notice (`do_async`) or drives the poller towards
`RUNNING`.  `createdId` is the cluster id the client's create returns and
`pollResponses` the snapshots its `get` then returns. -/
def AWSClusterManager.create (pollResponses : List V1GetClusterResponse)
    (createdId cluster_name region role_arn external_id : String) (do_async : Bool)
    (timeout : Nat) (timeoutStr : String) (poll : Nat) : ManagerResult :=
  match _check_cluster_name_is_valid cluster_name with
  | Except.error msg => ⟨[], [], some msg⟩
  | Except.ok _ =>
    let body : V1CreateClusterRequest :=
      ⟨cluster_name,
        ⟨some V1ClusterType.BYOC, some V1ClusterPerformanceProfile.DEFAULT,
          some ⟨⟨⟨none, some region, some role_arn, some external_id⟩⟩⟩⟩⟩
    if do_async then
      ⟨[ClientCall.createCluster body],
        [_create_notice createdId, "\nCluster will be created in the background!"], none⟩
    else
      let p := _wait_for_cluster_state pollResponses createdId V1ClusterState.RUNNING
        timeout timeoutStr poll none
      ⟨ClientCall.createCluster body :: List.replicate p.fetches (ClientCall.get createdId),
        _create_notice createdId :: p.events.map renderEvent, none⟩

/-- Modelled from the spec: `AWSClusterManager.delete(cluster_id, force,
do_async)` (spec.md §4.3).  First fetches the cluster's current spec via the
client's `get` (to recover the bucket name), then issues the delete call,
prints the deletion notice reporting that bucket, and either prints the
background notice (`do_async`) or drives the poller towards `DELETED`.
`getResp` is the snapshot the pre-delete `get` returns and `pollResponses`
those returned while polling. -/
def AWSClusterManager.delete (getResp : V1GetClusterResponse)
    (pollResponses : List V1GetClusterResponse) (cluster_id : String) (force : Bool)
    (do_async : Bool) (timeout : Nat) (timeoutStr : String) (poll : Nat) : ManagerResult :=
  let bucket := bucketOf getResp
  if do_async then
    ⟨[ClientCall.get cluster_id, ClientCall.deleteCluster cluster_id force],
      [_delete_notice bucket, "\nCluster will be deleted in the background!"], none⟩
  else
    let p := _wait_for_cluster_state pollResponses cluster_id V1ClusterState.DELETED
      timeout timeoutStr poll none
    ⟨ClientCall.get cluster_id :: ClientCall.deleteCluster cluster_id force
        :: List.replicate p.fetches (ClientCall.get cluster_id),
      _delete_notice bucket :: p.events.map renderEvent, none⟩

/-- Modelled from the spec: the client's `list(excludePhases)` contract
(spec.md §6 and §4.3) — returns the clusters whose phase is not among the
excluded phases.  `allClusters` is the remote control plane's full state. -/
def clientListClusters (allClusters : List V1GetClusterResponse)
    (phase_not_in : List V1ClusterState) : List V1GetClusterResponse :=
  allClusters.filter (fun c => !(decide (c.status.phase ∈ phase_not_in)))

/-- The outcome of `AWSClusterManager.list`: the single client call issued and
the snapshots returned. -/
structure ListOutcome where
  calls : List ClientCall
  clusters : List V1GetClusterResponse
deriving DecidableEq, Repr

/-- Modelled from the spec: `AWSClusterManager.list()` (spec.md §4.3) —
delegates a single call to the client, asking it to exclude clusters already
in the `DELETED` phase; no polling. -/
def AWSClusterManager.list (allClusters : List V1GetClusterResponse) : ListOutcome :=
  ⟨[ClientCall.listClusters [V1ClusterState.DELETED]],
    clientListClusters allClusters [V1ClusterState.DELETED]⟩

/-- The fixed config file name, from
`src/lightning_app/utilities/packaging/app_config.py`. -/
def _APP_CONFIG_FILENAME : String := ".lightning"

/-- `AppConfig` from `app_config.py`: the persisted record
`{name: str, cluster_id: Optional[str]}`. -/
structure AppConfig where
  name : String
  cluster_id : Option String
deriving DecidableEq, Repr

/-- A parsed YAML document as produced by `yaml.dump(asdict(config))` and read
back by `yaml.safe_load`: a mapping from keys to scalar values, each value a
string or null.  The yaml library is an external collaborator, modelled as
faithfully round-tripping such mappings. -/
abbrev YamlDoc := List (String × Option String)

/-- The file system visible to `AppConfig`: a map from (absolute) paths to the
parsed YAML content of the file stored there, `none` when no file exists.
Paths are modelled as already-absolute strings, so `pathlib`'s `absolute()` is
the identity and `Path(a, b)` and `a / b` are both string joins with "/". -/
abbrev FileSys := String → Option YamlDoc

/-- `dataclasses.asdict` applied to an `AppConfig` (keys in the sorted order
`yaml.dump` writes them). -/
def AppConfig.asdict (c : AppConfig) : YamlDoc :=
  [("cluster_id", c.cluster_id), ("name", some c.name)]

/-- `AppConfig.save_to_file`: writes the dumped dictionary to `path`. -/
def AppConfig.save_to_file (c : AppConfig) (path : String) (fs : FileSys) : FileSys :=
  fun p => if p = path then some c.asdict else fs p

/-- `_get_config_file` from `app_config.py`: the path of the '.lightning' file
for `source_path`; when `source_path` is a file, its parent directory is used.
`isFile` and `parent` stand for the corresponding `pathlib` queries on the
ambient file system. -/
def _get_config_file (isFile : String → Bool) (parent : String → String)
    (source_path : String) : String :=
  let sp := if isFile source_path then parent source_path else source_path
  sp ++ "/" ++ _APP_CONFIG_FILENAME

/-- `AppConfig.save_to_dir`: saves to the '.lightning' file in `directory`. -/
def AppConfig.save_to_dir (c : AppConfig) (isFile : String → Bool)
    (parent : String → String) (directory : String) (fs : FileSys) : FileSys :=
  c.save_to_file (_get_config_file isFile parent directory) fs

/-- `cls(**config)` applied to a loaded document: requires the string-valued
"name" key (with no "name" key the source would call the `get_unique_name`
generator, and a null value would be ill-typed — both outside the round-trip
translated here, modelled as `none`); a missing or null "cluster_id" gives
`none`. -/
def AppConfig.ofDict (doc : YamlDoc) : Option AppConfig :=
  match List.lookup "name" doc with
  | some (some n) => some ⟨n, (List.lookup "cluster_id" doc).join⟩
  | _ => none

/-- `AppConfig.load_from_file`: parses the YAML at `path` and rebuilds the
`AppConfig`. -/
def AppConfig.load_from_file (path : String) (fs : FileSys) : Option AppConfig :=
  (fs path).bind AppConfig.ofDict

/-- `AppConfig.load_from_dir`: loads from the '.lightning' file in
`directory` (the source joins the path directly, without `_get_config_file`). -/
def AppConfig.load_from_dir (directory : String) (fs : FileSys) : Option AppConfig :=
  AppConfig.load_from_file (directory ++ "/" ++ _APP_CONFIG_FILENAME) fs

set_option maxRecDepth 100000

/-- Whether the first character list is an initial segment of the second
(structural, kernel-evaluable). -/
def startsWithChars : List Char → List Char → Bool
  | [], _ => true
  | _ :: _, [] => false
  | c :: cs, d :: ds => c == d && startsWithChars cs ds

/-- Whether the first character list occurs contiguously anywhere in the
second (structural, kernel-evaluable). -/
def containsChars (needle : List Char) : List Char → Bool
  | [] => startsWithChars needle []
  | d :: ds => startsWithChars needle (d :: ds) || containsChars needle ds

/-- The `spec` fixture of the test suite: a driver spec whose bucket name is
"test-bucket". -/
def specFixture : V1ClusterSpec :=
  ⟨none, none, some ⟨⟨⟨some "test-bucket", none, none, none⟩⟩⟩⟩

/-- A snapshot as built by `test_echo_state_change_on_desired_running`:
name "test-cluster", the given phase and reason, the `spec` fixture. -/
def snapTC (st : V1ClusterState) (reason : String) : V1GetClusterResponse :=
  ⟨none, some "test-cluster", ⟨st, reason⟩, specFixture⟩

/-- A snapshot as built by `test_happy_path` / `test_times_out`:
id "test-cluster", the given phase, the `spec` fixture. -/
def snapId (st : V1ClusterState) : V1GetClusterResponse :=
  ⟨some "test-cluster", none, ⟨st, ""⟩, specFixture⟩


/-- The snapshot sequence of claim C1:
QUEUED, PENDING, PENDING, PENDING, FAILED("some error"),
PENDING("retrying failure"), RUNNING. -/
def seqC1 : List V1GetClusterResponse :=
  [snapTC V1ClusterState.QUEUED "", snapTC V1ClusterState.PENDING "",
   snapTC V1ClusterState.PENDING "", snapTC V1ClusterState.PENDING "",
   snapTC V1ClusterState.FAILED "some error",
   snapTC V1ClusterState.PENDING "retrying failure",
   snapTC V1ClusterState.RUNNING ""]

/-- The C1 poll run: target `RUNNING`, timeout 0.6 s, poll interval 0.1 s. -/
def runC1 : PollState :=
  _wait_for_cluster_state seqC1 "test-cluster" V1ClusterState.RUNNING 6 "0.6" 1 none

/-- The C2 poll run at the failing input: the client keeps answering an
`UNSPECIFIED` snapshot, target `RUNNING`, timeout 0.1 s, poll interval
0.1 s — the deadline passes before the target state is reached. -/
def runC2 : PollState :=
  _wait_for_cluster_state (List.replicate 10 (snapId V1ClusterState.UNSPECIFIED))
    "test-cluster" V1ClusterState.RUNNING 1 "0.1" 1 none

/-- The C3 happy-path poll run: snapshots [QUEUED, RUNNING], target `RUNNING`,
the default 5400 s timeout, poll interval 0.1 s. -/
def runC3 : PollState :=
  _wait_for_cluster_state [snapId V1ClusterState.QUEUED, snapId V1ClusterState.RUNNING]
    "test-cluster" V1ClusterState.RUNNING 54000 "5400" 1 none

/-- The response sequence used to witness the cancellation property:
QUEUED, PENDING, RUNNING. -/
def seqCancel : List V1GetClusterResponse :=
  [snapId V1ClusterState.QUEUED, snapId V1ClusterState.PENDING,
   snapId V1ClusterState.RUNNING]

/-- A small control-plane state used to witness the `list` property: one
running and one deleted cluster. -/
def demoClusters : List V1GetClusterResponse :=
  [snapId V1ClusterState.RUNNING, snapId V1ClusterState.DELETED]

/-- C1: on the snapshot sequence QUEUED, PENDING, PENDING, PENDING,
FAILED("some error"), PENDING("retrying failure"), RUNNING with target
`RUNNING`, `_wait_for_cluster_state` performs exactly 7 fetches via the
client's `get`, emits exactly 8 progress events — whose rendered texts are
exactly the strings the test expects `click.echo` to receive — and returns
the final `RUNNING` snapshot; the `FAILED` snapshot does not abort the loop. -/
theorem wait_seq_seven_fetches_eight_events :
    runC1.fetches = 7
    ∧ runC1.events.length = 8
    ∧ runC1.events.map renderEvent
      = ["Waiting for cluster to be running...",
         "Cluster test-cluster is being created [elapsed=00s]",
         "Cluster test-cluster is being created [elapsed=00s]",
         "Cluster test-cluster is being created [elapsed=00s]",
         "Cluster test-cluster is being created [elapsed=00s]",
         "The requested cluster operation for cluster test-cluster has errors:\nsome error\n\n---\nWe are automatically retrying, and an automated alert has been created\n\nWARNING: Any non-deleted cluster may be using resources.\nTo avoid incuring cost on your cloud provider, delete the cluster using the following command:\n    lightning delete cluster test-cluster\n\nContact support@lightning.ai for additional help\n",
         "Cluster test-cluster is being created [elapsed=00s]",
         "Cluster test-cluster is now running and ready to use.\nTo launch an app on this cluster use: lightning run app app.py --cloud --cluster-id test-cluster\n"]
    ∧ runC1.result = WaitResult.success (snapTC V1ClusterState.RUNNING "") := by
  decide

/-- C2: at the failing input the wait ends with the timeout exception, and its
message — the one `test_times_out` pins — tells the user to run
"lighting list clusters" (sic): the text "lightning list clusters" the claim
describes occurs nowhere in the message. -/
theorem timeout_message_typo_at_failing_input :
    runC2.result
      = WaitResult.timeoutErr (_cluster_not_ready_message "running" "0.1" "test-cluster")
    ∧ _cluster_not_ready_message "running" "0.1" "test-cluster"
      = "The cluster has not entered the running state within 0.1s.\n\nThe cluster may eventually be running afterwards, please check its status using:\n    lighting list clusters\n\nTo view cluster logs use:\n    lightning show cluster logs test-cluster\n\nContact support@lightning.ai for additional help\n"
    ∧ containsChars "lighting list clusters".data
        (_cluster_not_ready_message "running" "0.1" "test-cluster").data = true
    ∧ containsChars "lightning list clusters".data
        (_cluster_not_ready_message "running" "0.1" "test-cluster").data = false := by
  decide

/-- C3, counterexample: on [QUEUED, RUNNING] with target `RUNNING` the wait
does NOT emit exactly 2 progress events alongside its 2 fetches — the claim
as stated is false on this input. -/
theorem happy_path_two_events_false :
    ¬ (runC3.fetches = 2 ∧ runC3.events.length = 2) := by
  decide

/-- C3, amended: on [QUEUED, RUNNING] with target `RUNNING` the wait returns
after exactly 2 fetches via the client's `get` and emits exactly 3 progress
events — the session-start event, one heartbeat for the QUEUED snapshot, and
the terminal success event — returning the RUNNING snapshot. -/
theorem happy_path_two_fetches_three_events :
    runC3.fetches = 2
    ∧ runC3.events.length = 3
    ∧ runC3.events
      = [PollEvent.started V1ClusterState.RUNNING,
         PollEvent.heartbeat "test-cluster" V1ClusterState.RUNNING 0,
         PollEvent.terminal "test-cluster" V1ClusterState.RUNNING
           (snapId V1ClusterState.RUNNING)]
    ∧ runC3.result = WaitResult.success (snapId V1ClusterState.RUNNING) := by
  decide

/-- C4: failure-event emission is edge-triggered on the (state, reason) pair:
polling FAILED(r), FAILED(r), RUNNING emits a single failure event (the
repeat with an unchanged reason yields a heartbeat instead), while polling
FAILED(r), FAILED(r'), RUNNING with r ≠ r' emits a second failure event
carrying the new reason. -/
theorem failed_reason_edge_triggered (r r' : String) (h : r ≠ r') :
    (_wait_for_cluster_state
      [snapTC V1ClusterState.FAILED r, snapTC V1ClusterState.FAILED r,
       snapTC V1ClusterState.RUNNING ""]
      "test-cluster" V1ClusterState.RUNNING 54000 "5400" 1 none).events
      = [PollEvent.started V1ClusterState.RUNNING,
         PollEvent.failureDetected "test-cluster" r,
         PollEvent.heartbeat "test-cluster" V1ClusterState.RUNNING 0,
         PollEvent.terminal "test-cluster" V1ClusterState.RUNNING
           (snapTC V1ClusterState.RUNNING "")]
    ∧ (_wait_for_cluster_state
      [snapTC V1ClusterState.FAILED r, snapTC V1ClusterState.FAILED r',
       snapTC V1ClusterState.RUNNING ""]
      "test-cluster" V1ClusterState.RUNNING 54000 "5400" 1 none).events
      = [PollEvent.started V1ClusterState.RUNNING,
         PollEvent.failureDetected "test-cluster" r,
         PollEvent.failureDetected "test-cluster" r',
         PollEvent.terminal "test-cluster" V1ClusterState.RUNNING
           (snapTC V1ClusterState.RUNNING "")] := by
  constructor
  · simp [_wait_for_cluster_state, pollLoop, snapTC, specFixture, deadlineReached, elapsedSecs]
  · simp [_wait_for_cluster_state, pollLoop, snapTC, specFixture, deadlineReached, elapsedSecs, h]

/-- Witness for C4 at the reasons "some error" and "other error". -/
theorem failed_reason_edge_triggered_witness :
    ("some error" : String) ≠ "other error"
    ∧ (_wait_for_cluster_state
      [snapTC V1ClusterState.FAILED "some error", snapTC V1ClusterState.FAILED "some error",
       snapTC V1ClusterState.RUNNING ""]
      "test-cluster" V1ClusterState.RUNNING 54000 "5400" 1 none).events
      = [PollEvent.started V1ClusterState.RUNNING,
         PollEvent.failureDetected "test-cluster" "some error",
         PollEvent.heartbeat "test-cluster" V1ClusterState.RUNNING 0,
         PollEvent.terminal "test-cluster" V1ClusterState.RUNNING
           (snapTC V1ClusterState.RUNNING "")]
    ∧ (_wait_for_cluster_state
      [snapTC V1ClusterState.FAILED "some error", snapTC V1ClusterState.FAILED "other error",
       snapTC V1ClusterState.RUNNING ""]
      "test-cluster" V1ClusterState.RUNNING 54000 "5400" 1 none).events
      = [PollEvent.started V1ClusterState.RUNNING,
         PollEvent.failureDetected "test-cluster" "some error",
         PollEvent.failureDetected "test-cluster" "other error",
         PollEvent.terminal "test-cluster" V1ClusterState.RUNNING
           (snapTC V1ClusterState.RUNNING "")] :=
  ⟨by decide,
   (failed_reason_edge_triggered "some error" "other error" (by decide)).1,
   (failed_reason_edge_triggered "some error" "other error" (by decide)).2⟩

/-- If the cancel-free loop would fetch more than `n` times from position
`k < n`, the loop with an interrupt scheduled at sleep `n` instead stops at
exactly `n` fetches, keeps only the events of the first `n - k` fetches, and
ends cancelled. -/
lemma pollLoop_cancel_eq (cid : String) (target : V1ClusterState) (timeout poll : Nat)
    (tS : String) (n : Nat) (responses : List V1GetClusterResponse) :
    ∀ (prev : Option (V1ClusterState × String)) (k : Nat),
      k < n →
      n < (pollLoop cid target timeout poll tS none responses prev k).fetches →
      pollLoop cid target timeout poll tS (some n) responses prev k
        = ⟨n, (pollLoop cid target timeout poll tS none responses prev k).events.take (n - k),
            WaitResult.cancelled⟩ := by
  induction responses with
  | nil =>
    intro prev k hk hf
    exfalso
    simp only [pollLoop] at hf
    split at hf <;> simp at hf <;> omega
  | cons resp rest ih =>
    intro prev k hk hf
    simp only [pollLoop] at hf ⊢
    by_cases hd : deadlineReached timeout poll k
    · simp [hd] at hf; omega
    · simp only [hd, Bool.false_eq_true, if_false] at hf ⊢
      by_cases ht : resp.status.phase = target
      · simp [ht] at hf; omega
      · simp only [ht, if_false] at hf ⊢
        by_cases hc : n = k + 1
        · subst hc
          simp only [if_pos rfl, Option.some.injEq, if_true]
          simp
        · have hne : (some n = some (k + 1)) = False := by
            simp [hc]
          simp only [hne, if_false] at hf ⊢
          have hk1 : k + 1 < n := by omega
          rw [ih _ (k + 1) hk1 hf]
          have : n - k = (n - (k + 1)) + 1 := by omega
          simp [this]

/-- A loop run that ends cancelled never emitted a terminal success event:
every event of such a run is a heartbeat or a failure-detected event. -/
lemma pollLoop_cancelled_no_terminal (cid : String) (target : V1ClusterState)
    (timeout poll : Nat) (tS : String) (cancelAt : Option Nat)
    (responses : List V1GetClusterResponse) :
    ∀ (prev : Option (V1ClusterState × String)) (k : Nat),
      (pollLoop cid target timeout poll tS cancelAt responses prev k).result
        = WaitResult.cancelled →
      ∀ e ∈ (pollLoop cid target timeout poll tS cancelAt responses prev k).events,
        e.isTerminal = false := by
  induction responses with
  | nil =>
    intro prev k hr
    exfalso
    simp only [pollLoop] at hr
    split at hr <;> simp at hr
  | cons resp rest ih =>
    intro prev k hr
    simp only [pollLoop] at hr ⊢
    by_cases hd : deadlineReached timeout poll k
    · simp [hd] at hr
    · simp only [hd, Bool.false_eq_true, if_false] at hr ⊢
      by_cases ht : resp.status.phase = target
      · simp [ht] at hr
      · simp only [ht, if_false] at hr ⊢
        by_cases hc : cancelAt = some (k + 1)
        · simp only [hc, if_pos rfl] at hr ⊢
          intro e he
          simp at he
          subst he
          split <;> simp [PollEvent.isTerminal]
        · simp only [if_neg hc] at hr ⊢
          intro e he
          simp at he
          rcases he with he | he
          · subst he
            split <;> simp [PollEvent.isTerminal]
          · exact ih _ (k + 1) hr e he

/-- C5: if a cancellation signal (interactive interrupt) arrives during the
`n`-th inter-poll sleep — a sleep the wait actually reaches, since without
cancellation it would fetch more than `n` times — then polling stops
immediately: the cancelled wait performed exactly `n` fetches via the
client's `get` (none after the interrupt), its events are exactly the first
`n + 1` events of the uncancelled wait (no terminal and no further progress
event is emitted), and the cancellation propagates as the result. -/
theorem cancel_during_sleep_stops_polling
    (responses : List V1GetClusterResponse) (cid : String) (target : V1ClusterState)
    (timeout : Nat) (tS : String) (poll : Nat) (n : Nat)
    (hn : 0 < n)
    (hreach : n < (_wait_for_cluster_state responses cid target timeout tS poll none).fetches) :
    (_wait_for_cluster_state responses cid target timeout tS poll (some n)).result
        = WaitResult.cancelled
    ∧ (_wait_for_cluster_state responses cid target timeout tS poll (some n)).fetches = n
    ∧ (_wait_for_cluster_state responses cid target timeout tS poll (some n)).events
        = ((_wait_for_cluster_state responses cid target timeout tS poll none).events).take (n + 1)
    ∧ ∀ e ∈ (_wait_for_cluster_state responses cid target timeout tS poll (some n)).events,
        e.isTerminal = false := by
  have hf : n < (pollLoop cid target timeout poll tS none responses none 0).fetches := hreach
  have hmain := pollLoop_cancel_eq cid target timeout poll tS n responses none 0 hn hf
  refine ⟨?_, ?_, ?_, ?_⟩
  · simp [_wait_for_cluster_state, hmain]
  · simp [_wait_for_cluster_state, hmain]
  · simp only [_wait_for_cluster_state, hmain]
    simp [List.take_succ_cons, Nat.sub_zero]
  · intro e he
    simp only [_wait_for_cluster_state, List.mem_cons] at he
    rcases he with he | he
    · subst he; simp [PollEvent.isTerminal]
    · exact pollLoop_cancelled_no_terminal cid target timeout poll tS (some n)
        responses none 0 (by simp [hmain]) e he

/-- Witness for C5: interrupting during the first sleep of a QUEUED, PENDING,
RUNNING wait stops it after a single fetch. -/
theorem cancel_during_sleep_stops_polling_witness :
    0 < 1
    ∧ 1 < (_wait_for_cluster_state seqCancel "test-cluster" V1ClusterState.RUNNING
        54000 "5400" 1 none).fetches
    ∧ ((_wait_for_cluster_state seqCancel "test-cluster" V1ClusterState.RUNNING
          54000 "5400" 1 (some 1)).result = WaitResult.cancelled
      ∧ (_wait_for_cluster_state seqCancel "test-cluster" V1ClusterState.RUNNING
          54000 "5400" 1 (some 1)).fetches = 1
      ∧ (_wait_for_cluster_state seqCancel "test-cluster" V1ClusterState.RUNNING
          54000 "5400" 1 (some 1)).events
        = ((_wait_for_cluster_state seqCancel "test-cluster" V1ClusterState.RUNNING
            54000 "5400" 1 none).events).take 2
      ∧ ∀ e ∈ (_wait_for_cluster_state seqCancel "test-cluster" V1ClusterState.RUNNING
          54000 "5400" 1 (some 1)).events, e.isTerminal = false) :=
  ⟨by decide, by decide,
    by
      have h := cancel_during_sleep_stops_polling seqCancel "test-cluster"
        V1ClusterState.RUNNING 54000 "5400" 1 1 (by decide) (by decide)
      exact ⟨h.1, h.2.1, h.2.2.1, h.2.2.2⟩⟩

/-- C6: every name matching the accepted pattern — nonempty, at most 64
characters, lowercase alphanumerics and hyphens only — is accepted by the
validator, which returns the name; every name exceeding the length bound or
containing a character outside the pattern is rejected with the
`click.ClickException` whose message names the offending regex pattern. -/
theorem cluster_name_validator_spec (name : String) :
    ((1 ≤ name.length ∧ name.length ≤ 64
        ∧ ∀ c ∈ name.data, c.isLower = true ∨ c.isDigit = true ∨ c = '-') →
      _check_cluster_name_is_valid name = Except.ok name)
    ∧ ((64 < name.length
        ∨ ∃ c ∈ name.data, ¬(c.isLower = true ∨ c.isDigit = true ∨ c = '-')) →
      _check_cluster_name_is_valid name
        = Except.error "cluster name doesn't match regex pattern ^[a-z0-9-]\x7b1,64\x7d$") := by
  constructor
  · rintro ⟨h1, h2, h3⟩
    have hok : clusterNameRegexOk name = true := by
      simp only [clusterNameRegexOk, Bool.and_eq_true, decide_eq_true_eq, List.all_eq_true]
      refine ⟨⟨h1, h2⟩, ?_⟩
      intro c hc
      rcases h3 c hc with h | h | h <;> simp [h]
    simp [_check_cluster_name_is_valid, hok]
  · intro h
    have hbad : clusterNameRegexOk name = false := by
      rcases h with h | ⟨c, hc, hcbad⟩
      · have : ¬ (name.length ≤ 64) := by omega
        simp [clusterNameRegexOk, this]
      · have : name.data.all (fun c => c.isLower || c.isDigit || c = '-') = false := by
          rw [List.all_eq_false]
          refine ⟨c, hc, ?_⟩
          simp only [not_or] at hcbad
          simp [hcbad.1, hcbad.2.1, hcbad.2.2]
        simp [clusterNameRegexOk, this]
    simp [_check_cluster_name_is_valid, hbad]

/-- Witness for C6: "test-7" and "0wildgoat" are accepted; "(&%)!@#" and a
70-character digit string are rejected with the pattern-naming error. -/
theorem cluster_name_validator_spec_witness :
    _check_cluster_name_is_valid "test-7" = Except.ok "test-7"
    ∧ _check_cluster_name_is_valid "0wildgoat" = Except.ok "0wildgoat"
    ∧ _check_cluster_name_is_valid "(&%)!@#"
        = Except.error "cluster name doesn't match regex pattern ^[a-z0-9-]\x7b1,64\x7d$"
    ∧ _check_cluster_name_is_valid
        "1234567890123456789012345678901234567890123456789012345678901234567890"
        = Except.error "cluster name doesn't match regex pattern ^[a-z0-9-]\x7b1,64\x7d$" :=
  ⟨(cluster_name_validator_spec "test-7").1 (by decide),
   (cluster_name_validator_spec "0wildgoat").1 (by decide),
   (cluster_name_validator_spec "(&%)!@#").2 (Or.inr ⟨'(', by decide, by decide⟩),
   (cluster_name_validator_spec
     "1234567890123456789012345678901234567890123456789012345678901234567890").2
     (Or.inl (by decide))⟩

/-- C7: `delete` always issues the pre-delete fetch via the client's `get`
and only then the delete call — they are the first two client calls, in that
order, whatever `force` and `do_async` are — and the first text it prints is
the deletion notice that reports the bucket name recovered from that
pre-delete fetch while stating that the S3 bucket is intentionally not
deleted and must be removed manually. -/
theorem delete_fetches_before_delete_and_reports_bucket
    (getResp : V1GetClusterResponse) (pollResponses : List V1GetClusterResponse)
    (cluster_id : String) (force do_async : Bool)
    (timeout : Nat) (tS : String) (poll : Nat) :
    (AWSClusterManager.delete getResp pollResponses cluster_id force do_async
        timeout tS poll).calls.take 2
      = [ClientCall.get cluster_id, ClientCall.deleteCluster cluster_id force]
    ∧ (AWSClusterManager.delete getResp pollResponses cluster_id force do_async
        timeout tS poll).echoed.head?
      = some ("Cluster deletion triggered successfully\n\nFor safety purposes we will not delete anything in the S3 bucket associated with the cluster:\n    "
          ++ bucketOf getResp
          ++ "\n\nYou may want to delete it manually using the AWS CLI:\n    aws s3 rb --force s3://"
          ++ bucketOf getResp ++ "\n") := by
  by_cases hd : do_async
  · constructor <;> simp [AWSClusterManager.delete, hd, _delete_notice]
  · constructor <;> simp [AWSClusterManager.delete, hd, _delete_notice]

/-- C8: `list` delegates exactly one call to the client, requesting that
clusters in the `DELETED` phase be excluded, and every snapshot it returns
has a state other than `DELETED`; no polling is performed. -/
theorem list_excludes_deleted (allClusters : List V1GetClusterResponse) :
    (AWSClusterManager.list allClusters).calls
        = [ClientCall.listClusters [V1ClusterState.DELETED]]
    ∧ ∀ c ∈ (AWSClusterManager.list allClusters).clusters,
        c.status.phase ≠ V1ClusterState.DELETED := by
  refine ⟨rfl, ?_⟩
  intro c hc
  simp [AWSClusterManager.list, clientListClusters, List.mem_filter] at hc
  exact hc.2

/-- Witness for C8 on a control plane holding one running and one deleted
cluster: the single excluding call is issued and the running snapshot, which
`list` returns, is not `DELETED`. -/
theorem list_excludes_deleted_witness :
    (AWSClusterManager.list demoClusters).calls
        = [ClientCall.listClusters [V1ClusterState.DELETED]]
    ∧ (snapId V1ClusterState.RUNNING).status.phase ≠ V1ClusterState.DELETED :=
  ⟨(list_excludes_deleted demoClusters).1,
   (list_excludes_deleted demoClusters).2 (snapId V1ClusterState.RUNNING) (by decide)⟩

/-- The polling reads recorded after a create never contain a create call. -/
lemma filter_isCreate_replicate_get (n : Nat) (cid : String) :
    (List.replicate n (ClientCall.get cid)).filter ClientCall.isCreate = [] := by
  induction n with
  | zero => rfl
  | succ n ih => simp [List.replicate_succ, List.filter, ClientCall.isCreate, ih]

/-- C9: for every invocation of `create` with a valid name, exactly one create
mutation is issued — whether `do_async` is true or false — and its body
carries the fixed `BYOC` cluster type, the fixed `DEFAULT` performance
profile, and the caller-supplied name, region, role ARN and external id. -/
theorem create_single_mutation_call
    (pollResponses : List V1GetClusterResponse)
    (createdId cluster_name region role_arn external_id : String) (do_async : Bool)
    (timeout : Nat) (tS : String) (poll : Nat)
    (h : clusterNameRegexOk cluster_name = true) :
    (AWSClusterManager.create pollResponses createdId cluster_name region role_arn
        external_id do_async timeout tS poll).calls.filter ClientCall.isCreate
      = [ClientCall.createCluster
          ⟨cluster_name,
            ⟨some V1ClusterType.BYOC, some V1ClusterPerformanceProfile.DEFAULT,
              some ⟨⟨⟨none, some region, some role_arn, some external_id⟩⟩⟩⟩⟩] := by
  by_cases hd : do_async
  · simp [AWSClusterManager.create, _check_cluster_name_is_valid, h, hd,
      List.filter, ClientCall.isCreate]
  · simp [AWSClusterManager.create, _check_cluster_name_is_valid, h, hd,
      List.filter, ClientCall.isCreate, filter_isCreate_replicate_get]

/-- Witness for C9 at the inputs of `test_create_cluster_api`, asynchronous
variant. -/
theorem create_single_mutation_call_witness :
    clusterNameRegexOk "test-7" = true
    ∧ (AWSClusterManager.create [] "test-cluster" "test-7" "us-west-2"
        "arn:aws:iam::1234567890:role/lai-byoc" "dummy" true
        54000 "5400" 1).calls.filter ClientCall.isCreate
      = [ClientCall.createCluster
          ⟨"test-7",
            ⟨some V1ClusterType.BYOC, some V1ClusterPerformanceProfile.DEFAULT,
              some ⟨⟨⟨none, some "us-west-2", some "arn:aws:iam::1234567890:role/lai-byoc",
                some "dummy"⟩⟩⟩⟩⟩] :=
  ⟨by decide,
   create_single_mutation_call [] "test-cluster" "test-7" "us-west-2"
     "arn:aws:iam::1234567890:role/lai-byoc" "dummy" true 54000 "5400" 1 (by decide)⟩

/-- C10: saving any `AppConfig` to a directory and loading from the same
directory round-trips: both the name and the cluster id (including a `none`
cluster id) are recovered, through the fixed '.lightning' file name. -/
theorem app_config_save_load_roundtrip
    (c : AppConfig) (isFile : String → Bool) (parent : String → String)
    (directory : String) (fs : FileSys)
    (hdir : isFile directory = false) :
    AppConfig.load_from_dir directory (c.save_to_dir isFile parent directory fs)
      = some c := by
  simp [AppConfig.load_from_dir, AppConfig.load_from_file, AppConfig.save_to_dir,
    AppConfig.save_to_file, _get_config_file, hdir, AppConfig.asdict, AppConfig.ofDict,
    List.lookup]

/-- Witness for C10 at a concrete config, directory and empty file system. -/
theorem app_config_save_load_roundtrip_witness :
    ((fun _ => false) : String → Bool) "/tmp/proj" = false
    ∧ AppConfig.load_from_dir "/tmp/proj"
        ((AppConfig.mk "demo-app" (some "cluster-1")).save_to_dir (fun _ => false)
          (fun s => s) "/tmp/proj" (fun _ => none))
      = some (AppConfig.mk "demo-app" (some "cluster-1")) :=
  ⟨rfl,
   app_config_save_load_roundtrip ⟨"demo-app", some "cluster-1"⟩ (fun _ => false)
     (fun s => s) "/tmp/proj" (fun _ => none) rfl⟩
